import Mathlib

/-!
Shallow embedding of `src/api/handler.rs`: a serverless request handler that
optionally grounds a prompt with web-search results, classifies the prompt as
code-related or general, dispatches it to a preferred inference backend, and
falls back to the alternate backend on failure.

Network I/O is abstracted by `HttpOutcome`: each outbound HTTP call is modelled
by the outcome the calling code can observe (transport failure, or a response
with a success/non-success status and a body that either parses or not).
Environment variables are modelled as `Option String` (`none` = unset).
Rust `String`s are modelled as Lean `String`s; lowercasing is modelled
character-wise, which agrees with Rust `to_lowercase` on ASCII text (all
classifier keywords are ASCII).
-/

namespace RegisClaude

/-- Model of `struct SearchResult` (handler.rs:26-31). -/
structure SearchResult where
  title : String
  link : String
  snippet : String
  deriving DecidableEq, Repr

/-- Model of `struct InputPayload` (handler.rs:8-13). -/
structure InputPayload where
  prompt : String
  model : Option String
  deriving DecidableEq, Repr

/-- Model of `struct OutputPayload` (handler.rs:16-23). -/
structure OutputPayload where
  success : Bool
  response : String
  sources : List SearchResult
  model_used : String
  grounding_performed : Bool
  deriving DecidableEq, Repr

/-- Model of `struct GoogleSearchItem` (handler.rs:39-44): `snippet` is
optional in the provider payload. -/
structure GoogleSearchItem where
  title : String
  link : String
  snippet : Option String
  deriving DecidableEq, Repr

/-- Model of `struct GoogleSearchResponse` (handler.rs:34-37). -/
structure GoogleSearchResponse where
  items : Option (List GoogleSearchItem)
  deriving DecidableEq, Repr

/-- Observable outcome of one outbound HTTP call made with `reqwest`:
either the transport fails (connection refused, unreachable host, or timeout:
`send()` returns `Err`), or a response arrives, carrying a success or
non-success HTTP status and a body that either deserializes to `α`
(`some`) or is malformed for that shape (`none`). -/
inductive HttpOutcome (α : Type) where
  | transportError
  | response (statusSuccess : Bool) (parsed : Option α)
  deriving DecidableEq

/-- Failure of a fallible call (an `anyhow::Error` in the source): a missing
environment variable, a transport-level failure, or a response body that does
not deserialize. -/
inductive CallError where
  | configMissing
  | transport
  | parse
  deriving DecidableEq, Repr

/-- Model of Rust `Result::unwrap_or_default` (`""` for `String`,
`[]` for `Vec`). -/
def unwrap_or_default {α : Type} [Inhabited α] : Except CallError α → α
  | .ok a => a
  | .error _ => default

/-- The item-to-result mapping inside `perform_grounding` (handler.rs:75-84):
`title` and `link` are copied; a missing `snippet` becomes `""`
(`item.snippet.unwrap_or_default()`). -/
def map_items (items : List GoogleSearchItem) : List SearchResult :=
  items.map fun item =>
    { title := item.title, link := item.link, snippet := item.snippet.getD "" }

/-- The search URL built at handler.rs:51-56; the urlencoded query is taken as
given (`urlencoding::encode` is an external crate). -/
def search_url (api_key search_cx encoded_query : String) : String :=
  "https://www.googleapis.com/customsearch/v1?key=" ++ api_key ++ "&cx="
    ++ search_cx ++ "&q=" ++ encoded_query ++ "&num=5"

/-- Model of `perform_grounding` (handler.rs:47-87). A missing
`GOOGLE_API_KEY` or `GOOGLE_SEARCH_CX` and a transport failure each propagate
as an error (the `?` operator); a non-success status returns `Ok []`
(handler.rs:66-68); a malformed body on a success status is replaced by
`GoogleSearchResponse { items: None }` (handler.rs:70-73), hence also `Ok []`. -/
def perform_grounding (google_api_key google_search_cx : Option String)
    (outcome : HttpOutcome GoogleSearchResponse) :
    Except CallError (List SearchResult) :=
  match google_api_key with
  | none => .error .configMissing
  | some _ =>
    match google_search_cx with
    | none => .error .configMissing
    | some _ =>
      match outcome with
      | .transportError => .error .transport
      | .response statusSuccess parsed =>
        if !statusSuccess then .ok []
        else
          let search_response := parsed.getD ⟨none⟩
          .ok (map_items (search_response.items.getD []))

/-- The part of the Ollama JSON response read by `call_ollama`
(handler.rs:106-107): `result["response"].as_str()` when the field exists and
is a string. -/
structure OllamaBody where
  response : Option String
  deriving DecidableEq, Repr

/-- The part of the Gemini JSON response read by `call_gemini`
(handler.rs:136-142): the text of the first part of the first candidate when the whole
path `candidates[0].content.parts[0].text` exists and is a string. -/
structure GeminiBody where
  candidate_text : Option String
  deriving DecidableEq, Repr

/-- The combined prompt sent to Ollama (handler.rs:98). -/
def ollama_prompt (prompt context : String) : String :=
  "Context:\n" ++ context ++ "\n\nTask:\n" ++ prompt

/-- The combined prompt sent to Gemini (handler.rs:123). -/
def gemini_prompt (prompt context : String) : String :=
  "Context from web search:\n" ++ context ++ "\n\nUser request:\n" ++ prompt

/-- Model of `call_ollama` (handler.rs:90-108). The HTTP status of the
response is never inspected by the source: after a successful `send()`,
`response.json()` is attempted directly; `?` turns an unparseable body into an
error, and `result["response"].as_str().unwrap_or("")` substitutes `""` when
the field is missing. -/
def call_ollama (cloudflare_tunnel_url : Option String)
    (outcome : HttpOutcome OllamaBody) : Except CallError String :=
  match cloudflare_tunnel_url with
  | none => .error .configMissing
  | some _ =>
    match outcome with
    | .transportError => .error .transport
    | .response _statusSuccess parsed =>
      match parsed with
      | none => .error .parse
      | some body => .ok (body.response.getD "")

/-- Model of `call_gemini` (handler.rs:111-145). Like `call_ollama`, the HTTP
status is never inspected; a missing text path is replaced by the placeholder
`"No response generated"` (handler.rs:142). -/
def call_gemini (google_api_key : Option String)
    (outcome : HttpOutcome GeminiBody) : Except CallError String :=
  match google_api_key with
  | none => .error .configMissing
  | some _ =>
    match outcome with
    | .transportError => .error .transport
    | .response _statusSuccess parsed =>
      match parsed with
      | none => .error .parse
      | some body => .ok (body.candidate_text.getD "No response generated")

/-- The fixed keyword list of `is_code_prompt` (handler.rs:149-153). -/
def code_keywords : List String :=
  ["code", "function", "implement", "script", "program",
   "debug", "fix", "refactor", "rust", "python", "javascript",
   "typescript", "sql", "api", "endpoint", "algorithm"]

/-- Model of Rust `str::to_lowercase`, character-wise (`Char.toLower` agrees
with Rust lowercasing on ASCII, and every classifier keyword is ASCII). -/
def to_lowercase (s : String) : String := ⟨s.data.map Char.toLower⟩

/-- Model of Rust `str::contains` with a string pattern: contiguous substring
containment. -/
def contains_substr (hay needle : String) : Bool :=
  decide (needle.data <:+: hay.data)

/-- Model of `is_code_prompt` (handler.rs:148-157). -/
def is_code_prompt (prompt : String) : Bool :=
  let prompt_lower := to_lowercase prompt
  code_keywords.any fun kw => contains_substr prompt_lower kw

/-- The two request categories of the classifier. -/
inductive PromptCategory where
  | Code
  | General
  deriving DecidableEq, Repr

/-- The classification decision as taken at handler.rs:225: `Code` when
`is_code_prompt` holds, else `General`. -/
def classify (prompt : String) : PromptCategory :=
  if is_code_prompt prompt then .Code else .General

/-- Model of `validate_api_key` (handler.rs:160-172). `internal_auth_key` is
the `INTERNAL_AUTH_KEY` environment variable (`none` = unset; note
`env::var(..).unwrap_or_default()` maps unset to `""`); `x_api_key_header` is
the `x-api-key` request header (`none` = absent or not readable as a string). -/
def validate_api_key (internal_auth_key : Option String)
    (x_api_key_header : Option String) : Bool :=
  let expected_key := internal_auth_key.getD ""
  if expected_key.isEmpty then true
  else
    match x_api_key_header with
    | some key => key == expected_key
    | none => false

/-- The environment variables consumed by the pipeline. -/
structure Env where
  google_api_key : Option String
  google_search_cx : Option String
  cloudflare_tunnel_url : Option String
  internal_auth_key : Option String

/-- One outbound backend invocation, recording which backend was called and
the `(prompt, context)` pair its combined prompt was built from. -/
inductive BackendCall where
  | ollama (prompt context : String)
  | gemini (prompt context : String)
  deriving DecidableEq, Repr

/-- Model of Rust `Vec::join("\n")` as used at handler.rs:218-222. -/
def join_newline : List String → String
  | [] => ""
  | [a] => a
  | a :: b :: t => a ++ "\n" ++ join_newline (b :: t)

/-- The serialized grounding context (handler.rs:218-222): one
`- title: snippet` line per source, joined with newlines. -/
def context_of (sources : List SearchResult) : String :=
  join_newline (sources.map fun s => "- " ++ s.title ++ ": " ++ s.snippet)

/-- Model of the routing step (handler.rs:225-239): a code prompt goes to
Ollama and falls back to Gemini on Ollama failure (`unwrap_or_default` on the
fallback result); any other prompt goes to Gemini directly
(`unwrap_or_default`). Returns the `(response, model_used)` pair together with
the trace of backend invocations performed. The network is abstracted by
`ollama_net` / `gemini_net`, mapping the exact combined prompt that would be
sent to the observed HTTP outcome of that call. -/
def dispatch (env : Env) (ollama_net : String → HttpOutcome OllamaBody)
    (gemini_net : String → HttpOutcome GeminiBody)
    (prompt context : String) : (String × String) × List BackendCall :=
  if is_code_prompt prompt then
    match call_ollama env.cloudflare_tunnel_url
        (ollama_net (ollama_prompt prompt context)) with
    | .ok r => ((r, "ollama/qwen2.5-coder"), [.ollama prompt context])
    | .error _ =>
      let r := unwrap_or_default
        (call_gemini env.google_api_key (gemini_net (gemini_prompt prompt context)))
      ((r, "gemini-1.5-flash (fallback)"),
        [.ollama prompt context, .gemini prompt context])
  else
    let r := unwrap_or_default
      (call_gemini env.google_api_key (gemini_net (gemini_prompt prompt context)))
    ((r, "gemini-1.5-flash"), [.gemini prompt context])

/-- The grounding-classify-dispatch pipeline run on a parsed input
(handler.rs:216-248). Grounding failure is absorbed by `unwrap_or_default`
(handler.rs:217). `grounding_net` maps the query to the HTTP outcome of the
search request. -/
def process (env : Env)
    (grounding_net : String → HttpOutcome GoogleSearchResponse)
    (ollama_net : String → HttpOutcome OllamaBody)
    (gemini_net : String → HttpOutcome GeminiBody)
    (input : InputPayload) : OutputPayload × List BackendCall :=
  let sources := unwrap_or_default
    (perform_grounding env.google_api_key env.google_search_cx
      (grounding_net input.prompt))
  let context := context_of sources
  let rm := dispatch env ollama_net gemini_net input.prompt context
  ({ success := true,
     response := rm.1.1,
     sources := sources,
     model_used := rm.1.2,
     grounding_performed := !context.isEmpty }, rm.2)

/-- The four handler responses (handler.rs:179-254): the CORS preflight answer
(200, handler.rs:181-188), the invalid-key answer (401, handler.rs:191-196),
the invalid-JSON answer (400, handler.rs:206-214), and the pipeline result
(200, handler.rs:250-254). -/
inductive HandlerResult where
  | corsPreflight
  | unauthorized
  | badRequest
  | ok (out : OutputPayload)
  deriving DecidableEq, Repr

/-- The HTTP status code of each handler result. -/
def status_code : HandlerResult → Nat
  | .corsPreflight => 200
  | .unauthorized => 401
  | .badRequest => 400
  | .ok _ => 200

/-- Model of `handler` (handler.rs:179-254). `method` is the HTTP method of
the request; `body` is the result of parsing the request body as
`InputPayload` (`none` = invalid JSON). The only branch on the method is the
`OPTIONS` CORS-preflight check (handler.rs:181). -/
def handler (method : String) (env : Env) (x_api_key_header : Option String)
    (body : Option InputPayload)
    (grounding_net : String → HttpOutcome GoogleSearchResponse)
    (ollama_net : String → HttpOutcome OllamaBody)
    (gemini_net : String → HttpOutcome GeminiBody) :
    HandlerResult × List BackendCall :=
  if method == "OPTIONS" then (.corsPreflight, [])
  else if !validate_api_key env.internal_auth_key x_api_key_header then
    (.unauthorized, [])
  else
    match body with
    | none => (.badRequest, [])
    | some input =>
      let oc := process env grounding_net ollama_net gemini_net input
      (.ok oc.1, oc.2)

/-! ## Helper lemmas -/

theorem contains_substr_iff {hay needle : String} :
    contains_substr hay needle = true ↔ needle.data <:+: hay.data := by
  simp [contains_substr]

theorem data_to_lowercase (s : String) :
    (to_lowercase s).data = s.data.map Char.toLower := rfl

theorem context_of_cons_ne_empty (a : SearchResult) (t : List SearchResult) :
    context_of (a :: t) ≠ "" := by
  intro h
  have h2 := congrArg String.data h
  cases t with
  | nil => simp [context_of, join_newline, String.data_append] at h2
  | cons b u => simp [context_of, join_newline, String.data_append] at h2

theorem context_of_eq_empty_iff (sources : List SearchResult) :
    context_of sources = "" ↔ sources = [] := by
  cases sources with
  | nil => simp [context_of, join_newline]
  | cons a t =>
    constructor
    · intro h
      exact absurd h (context_of_cons_ne_empty a t)
    · intro h
      exact absurd h (by simp)

theorem is_code_prompt_iff (p : String) :
    is_code_prompt p = true ↔
      ∃ kw ∈ code_keywords, ∃ s : List Char,
        s <:+: p.data ∧ kw.data = s.map Char.toLower := by
  unfold is_code_prompt
  rw [List.any_eq_true]
  constructor
  · rintro ⟨kw, hmem, hcont⟩
    rw [contains_substr_iff, data_to_lowercase, List.isInfix_map_iff] at hcont
    obtain ⟨s, hs, heq⟩ := hcont
    exact ⟨kw, hmem, s, hs, heq⟩
  · rintro ⟨kw, hmem, s, hs, heq⟩
    refine ⟨kw, hmem, ?_⟩
    rw [contains_substr_iff, data_to_lowercase, List.isInfix_map_iff]
    exact ⟨s, hs, heq⟩

/-! ## Claim theorems -/

/-- C1: the classifier returns `Code` if and only if at least one keyword from
the fixed keyword set occurs (case-insensitively, at any position) as a
contiguous substring of the request text; otherwise it returns `General`. -/
theorem classify_Code_iff_keyword_occurs (p : String) :
    classify p = PromptCategory.Code ↔
      ∃ kw ∈ code_keywords, ∃ s : List Char,
        s <:+: p.data ∧ kw.data = s.map Char.toLower := by
  rw [← is_code_prompt_iff]
  unfold classify
  cases h : is_code_prompt p with
  | true => simp [h]
  | false => simp [h]

example : is_code_prompt "fix" = true := by decide
example : is_code_prompt "Please FIX my car" = true := by decide
example : is_code_prompt "hello there" = false := by decide
example : is_code_prompt "my subscription" = true := by decide

/-- C2: when the Ollama invocation for a code-classified prompt fails, Gemini is
invoked with the identical `(prompt, context)` pair, the recorded model id is
`"gemini-1.5-flash (fallback)"`, and that id differs from the id recorded on
the direct general path for any non-code prompt. -/
theorem code_fallback_uses_identical_pair (env : Env)
    (ollama_net : String → HttpOutcome OllamaBody)
    (gemini_net : String → HttpOutcome GeminiBody)
    (prompt context : String) (e : CallError)
    (hcode : is_code_prompt prompt = true)
    (hfail : call_ollama env.cloudflare_tunnel_url
        (ollama_net (ollama_prompt prompt context)) = Except.error e) :
    (dispatch env ollama_net gemini_net prompt context).2
      = [BackendCall.ollama prompt context, BackendCall.gemini prompt context]
    ∧ (dispatch env ollama_net gemini_net prompt context).1.1
      = unwrap_or_default (call_gemini env.google_api_key
          (gemini_net (gemini_prompt prompt context)))
    ∧ (dispatch env ollama_net gemini_net prompt context).1.2
      = "gemini-1.5-flash (fallback)"
    ∧ ∀ prompt2, is_code_prompt prompt2 = false →
        (dispatch env ollama_net gemini_net prompt2 context).1.2
          ≠ (dispatch env ollama_net gemini_net prompt context).1.2 := by
  refine ⟨?_, ?_, ?_, ?_⟩
  · simp [dispatch, hcode, hfail]
  · simp [dispatch, hcode, hfail]
  · simp [dispatch, hcode, hfail]
  · intro prompt2 h2
    simp [dispatch, hcode, hfail, h2]

/-- Witness for C2 at a concrete input: the tunnel URL is unset, so the Ollama
call fails with a configuration error and the fallback fires. -/
theorem code_fallback_uses_identical_pair_witness :
    (dispatch ⟨some "g", some "c", none, none⟩ (fun _ => HttpOutcome.transportError)
        (fun _ => HttpOutcome.transportError) "fix" "").2
      = [BackendCall.ollama "fix" "", BackendCall.gemini "fix" ""]
    ∧ (dispatch ⟨some "g", some "c", none, none⟩ (fun _ => HttpOutcome.transportError)
        (fun _ => HttpOutcome.transportError) "fix" "").1.2
      = "gemini-1.5-flash (fallback)"
    ∧ (dispatch ⟨some "g", some "c", none, none⟩ (fun _ => HttpOutcome.transportError)
        (fun _ => HttpOutcome.transportError) "hello there" "").1.2
      ≠ (dispatch ⟨some "g", some "c", none, none⟩ (fun _ => HttpOutcome.transportError)
        (fun _ => HttpOutcome.transportError) "fix" "").1.2 := by
  have h := code_fallback_uses_identical_pair ⟨some "g", some "c", none, none⟩
    (fun _ => HttpOutcome.transportError) (fun _ => HttpOutcome.transportError)
    "fix" "" CallError.configMissing (by decide) rfl
  exact ⟨h.1, h.2.2.1, h.2.2.2 "hello there" (by decide)⟩

/-- C3: every completed pipeline run reports `success = true`, for every
environment and every observable outcome of the grounding and backend calls —
there is no representable total-failure response. -/
theorem process_success_always_true (env : Env)
    (grounding_net : String → HttpOutcome GoogleSearchResponse)
    (ollama_net : String → HttpOutcome OllamaBody)
    (gemini_net : String → HttpOutcome GeminiBody)
    (input : InputPayload) :
    ((process env grounding_net ollama_net gemini_net input).1).success = true := by
  rfl

/-- C7: in every completed pipeline run, `grounding_performed` is `true` iff
the serialized grounding context of the returned sources is non-empty, and
`false` iff the returned source list is empty. -/
theorem grounding_performed_iff_context_nonempty (env : Env)
    (grounding_net : String → HttpOutcome GoogleSearchResponse)
    (ollama_net : String → HttpOutcome OllamaBody)
    (gemini_net : String → HttpOutcome GeminiBody)
    (input : InputPayload) :
    (((process env grounding_net ollama_net gemini_net input).1).grounding_performed
        = true
      ↔ context_of ((process env grounding_net ollama_net gemini_net input).1).sources
        ≠ "")
    ∧ (((process env grounding_net ollama_net gemini_net input).1).grounding_performed
        = false
      ↔ ((process env grounding_net ollama_net gemini_net input).1).sources = []) := by
  set sources := unwrap_or_default
    (perform_grounding env.google_api_key env.google_search_cx
      (grounding_net input.prompt)) with hsources
  have hout :
      ((process env grounding_net ollama_net gemini_net input).1).grounding_performed
        = !(context_of sources).isEmpty := rfl
  have hsrc :
      ((process env grounding_net ollama_net gemini_net input).1).sources = sources := rfl
  constructor
  · rw [hout, hsrc]
    rw [Bool.not_eq_true', ← Bool.not_eq_true]
    rw [show ((context_of sources).isEmpty = true) ↔ context_of sources = ""
      from String.isEmpty_iff _]
  · rw [hout, hsrc]
    rw [Bool.not_eq_false']
    rw [show ((context_of sources).isEmpty = true) ↔ context_of sources = ""
      from String.isEmpty_iff _]
    exact context_of_eq_empty_iff sources

/-- C4 counterexample: with both configuration variables present and the
provider unreachable (transport failure or timeout), `perform_grounding`
returns an error — not an empty sequence. -/
theorem perform_grounding_transport_error_fails :
    perform_grounding (some "k") (some "c") HttpOutcome.transportError
      = Except.error CallError.transport
    ∧ perform_grounding (some "k") (some "c") HttpOutcome.transportError
      ≠ Except.ok [] := by
  refine ⟨rfl, ?_⟩
  intro h
  exact Except.noConfusion h

/-- C4 amended: `perform_grounding` returns `Ok []` on a non-2xx status and on
a malformed body under a success status, but propagates an error on a
transport failure (unreachable provider or timeout) and on missing
configuration; the handler call site (handler.rs:217, `.unwrap_or_default()`)
absorbs every such error into the empty sequence, so the pipeline itself never
aborts at the grounding step. -/
theorem perform_grounding_error_handling (k c : String)
    (parsed : Option GoogleSearchResponse) (key cx : Option String)
    (outcome : HttpOutcome GoogleSearchResponse) :
    perform_grounding (some k) (some c) (HttpOutcome.response false parsed)
      = Except.ok []
    ∧ perform_grounding (some k) (some c) (HttpOutcome.response true none)
      = Except.ok []
    ∧ (perform_grounding (some k) (some c) HttpOutcome.transportError).isOk = false
    ∧ (perform_grounding none cx outcome).isOk = false
    ∧ (perform_grounding (some k) none outcome).isOk = false
    ∧ (∀ e, perform_grounding key cx outcome = Except.error e →
        unwrap_or_default (perform_grounding key cx outcome) = []) := by
  refine ⟨rfl, rfl, rfl, rfl, rfl, ?_⟩
  intro e he
  rw [he]
  rfl

/-- Witness for C4 amended at concrete inputs, discharging the inner
implication at a transport error. -/
theorem perform_grounding_error_handling_witness :
    perform_grounding (some "k") (some "c") (HttpOutcome.response false none)
      = Except.ok []
    ∧ unwrap_or_default
        (perform_grounding (some "k") (some "c") HttpOutcome.transportError) = [] := by
  have h := perform_grounding_error_handling "k" "c" none (some "k") (some "c")
    HttpOutcome.transportError
  exact ⟨h.1, h.2.2.2.2.2 CallError.transport rfl⟩

/-- C5 counterexample: a successful provider response whose body carries six
items yields six documents — `perform_grounding` performs no client-side
truncation to 5. -/
theorem perform_grounding_no_truncation_counterexample :
    (unwrap_or_default (perform_grounding (some "k") (some "c")
        (HttpOutcome.response true (some ⟨some
          [⟨"t1", "l1", none⟩, ⟨"t2", "l2", none⟩, ⟨"t3", "l3", none⟩,
           ⟨"t4", "l4", none⟩, ⟨"t5", "l5", none⟩, ⟨"t6", "l6", none⟩]⟩)))).length
      = 6
    ∧ ¬ (unwrap_or_default (perform_grounding (some "k") (some "c")
        (HttpOutcome.response true (some ⟨some
          [⟨"t1", "l1", none⟩, ⟨"t2", "l2", none⟩, ⟨"t3", "l3", none⟩,
           ⟨"t4", "l4", none⟩, ⟨"t5", "l5", none⟩, ⟨"t6", "l6", none⟩]⟩)))).length
      ≤ 5 := by
  refine ⟨rfl, by decide⟩

/-- C5 amended: the provider query asks for at most five results (`num=5` in
the URL), but the retrieval code never truncates the parsed body: on a success
status with a parsed body it returns exactly one document per provider item,
however many there are. -/
theorem perform_grounding_length_eq_items_length (k c q : String)
    (items : List GoogleSearchItem) :
    perform_grounding (some k) (some c)
        (HttpOutcome.response true (some ⟨some items⟩))
      = Except.ok (map_items items)
    ∧ (map_items items).length = items.length
    ∧ ("&num=5").data <:+ (search_url k c q).data := by
  refine ⟨rfl, by simp [map_items], ?_⟩
  refine ⟨("https://www.googleapis.com/customsearch/v1?key=" ++ k ++ "&cx="
    ++ c ++ "&q=" ++ q).data, ?_⟩
  rw [← String.data_append]
  rfl

/-- C6 counterexample: a non-success HTTP status whose body still parses as
JSON does not make either invoker fail — both return `Ok` with substituted
default text (`""` for Ollama, the placeholder for Gemini). -/
theorem invokers_ignore_status_counterexample :
    call_ollama (some "t") (HttpOutcome.response false (some ⟨none⟩))
      = Except.ok ""
    ∧ call_gemini (some "k") (HttpOutcome.response false (some ⟨none⟩))
      = Except.ok "No response generated" := by
  exact ⟨rfl, rfl⟩

/-- C6 amended: neither invoker inspects the HTTP status — the result of a
received response is determined by its body alone. The invokers fail exactly
on missing configuration, transport failure, or an unparseable body; whenever
the body parses, whatever the status, they return `Ok`, substituting default
text if the expected field is missing. -/
theorem invokers_status_blind (u k : String) (s1 s2 : Bool)
    (ob : Option OllamaBody) (gb : Option GeminiBody)
    (oBody : OllamaBody) (gBody : GeminiBody)
    (oOut : HttpOutcome OllamaBody) (gOut : HttpOutcome GeminiBody) :
    call_ollama (some u) (HttpOutcome.response s1 ob)
      = call_ollama (some u) (HttpOutcome.response s2 ob)
    ∧ call_gemini (some k) (HttpOutcome.response s1 gb)
      = call_gemini (some k) (HttpOutcome.response s2 gb)
    ∧ call_ollama (some u) (HttpOutcome.response s1 (some oBody))
      = Except.ok (oBody.response.getD "")
    ∧ call_gemini (some k) (HttpOutcome.response s1 (some gBody))
      = Except.ok (gBody.candidate_text.getD "No response generated")
    ∧ call_ollama (some u) (HttpOutcome.response s1 none)
      = Except.error CallError.parse
    ∧ call_gemini (some k) (HttpOutcome.response s1 none)
      = Except.error CallError.parse
    ∧ call_ollama (some u) HttpOutcome.transportError
      = Except.error CallError.transport
    ∧ call_gemini (some k) HttpOutcome.transportError
      = Except.error CallError.transport
    ∧ call_ollama none oOut = Except.error CallError.configMissing
    ∧ call_gemini none gOut = Except.error CallError.configMissing := by
  refine ⟨rfl, rfl, rfl, rfl, rfl, rfl, rfl, rfl, rfl, rfl⟩

/-- C8: each document returned by the grounding mapping copies the provider
`title` and `link` fields, its `snippet` is the provider snippet or `""` when
that field is missing — never absent. Order and position are preserved. -/
theorem map_items_field_mapping (items : List GoogleSearchItem) (i : Nat)
    (h : i < items.length) (h2 : i < (map_items items).length) :
    (map_items items)[i].title = items[i].title
    ∧ (map_items items)[i].link = items[i].link
    ∧ (map_items items)[i].snippet = (items[i].snippet).getD ""
    ∧ (items[i].snippet = none → (map_items items)[i].snippet = "") := by
  refine ⟨?_, ?_, ?_, ?_⟩
  · simp [map_items]
  · simp [map_items]
  · simp [map_items]
  · intro hn
    simp [map_items, hn]

/-- Witness for C8 at a one-item list whose snippet is missing. -/
theorem map_items_field_mapping_witness :
    (map_items [⟨"T", "L", (none : Option String)⟩])[0].title = "T"
    ∧ (map_items [⟨"T", "L", (none : Option String)⟩])[0].link = "L"
    ∧ (map_items [⟨"T", "L", (none : Option String)⟩])[0].snippet = "" := by
  have h := map_items_field_mapping [⟨"T", "L", (none : Option String)⟩] 0
    (by decide) (by decide)
  exact ⟨h.1, h.2.1, h.2.2.2 rfl⟩

/-- C9: when `INTERNAL_AUTH_KEY` is unset or empty, `validate_api_key` returns
`true` whatever the `x-api-key` header holds, and the handler proceeds through
the pipeline (authentication is silently bypassed). -/
theorem validate_api_key_bypass (key : Option String) (header : Option String)
    (env : Env)
    (grounding_net : String → HttpOutcome GoogleSearchResponse)
    (ollama_net : String → HttpOutcome OllamaBody)
    (gemini_net : String → HttpOutcome GeminiBody)
    (input : InputPayload)
    (h : key = none ∨ key = some "")
    (henv : env.internal_auth_key = key) :
    validate_api_key key header = true
    ∧ (handler "POST" env header (some input) grounding_net ollama_net gemini_net).1
      = HandlerResult.ok (process env grounding_net ollama_net gemini_net input).1 := by
  have hv : validate_api_key key header = true := by
    rcases h with rfl | rfl <;> rfl
  refine ⟨hv, ?_⟩
  simp [handler, henv, hv]

/-- Witness for C9: no key configured, an arbitrary header value supplied. -/
theorem validate_api_key_bypass_witness :
    validate_api_key none (some "wrong-key") = true
    ∧ (handler "POST" ⟨none, none, none, none⟩ (some "wrong-key")
        (some ⟨"hello there", none⟩) (fun _ => HttpOutcome.transportError)
        (fun _ => HttpOutcome.transportError) (fun _ => HttpOutcome.transportError)).1
      = HandlerResult.ok (process ⟨none, none, none, none⟩
          (fun _ => HttpOutcome.transportError) (fun _ => HttpOutcome.transportError)
          (fun _ => HttpOutcome.transportError) ⟨"hello there", none⟩).1 :=
  validate_api_key_bypass none (some "wrong-key") ⟨none, none, none, none⟩
    (fun _ => HttpOutcome.transportError) (fun _ => HttpOutcome.transportError)
    (fun _ => HttpOutcome.transportError) ⟨"hello there", none⟩ (Or.inl rfl) rfl

/-- C10: the handler filters no method except `OPTIONS`: any two non-OPTIONS
methods are handled identically, and with passing auth and a valid JSON body
the full pipeline runs and answers with status 200. -/
theorem handler_no_method_filtering (m1 m2 : String) (env : Env)
    (header : Option String) (body : Option InputPayload)
    (grounding_net : String → HttpOutcome GoogleSearchResponse)
    (ollama_net : String → HttpOutcome OllamaBody)
    (gemini_net : String → HttpOutcome GeminiBody)
    (input : InputPayload)
    (h1 : (m1 == "OPTIONS") = false) (h2 : (m2 == "OPTIONS") = false)
    (hauth : validate_api_key env.internal_auth_key header = true) :
    handler m1 env header body grounding_net ollama_net gemini_net
      = handler m2 env header body grounding_net ollama_net gemini_net
    ∧ (handler m1 env header (some input) grounding_net ollama_net gemini_net).1
      = HandlerResult.ok (process env grounding_net ollama_net gemini_net input).1
    ∧ status_code
        (handler m1 env header (some input) grounding_net ollama_net gemini_net).1
      = 200 := by
  refine ⟨?_, ?_, ?_⟩
  · simp [handler, h1, h2]
  · simp [handler, h1, hauth]
  · simp [handler, h1, hauth, status_code]

/-- Witness for C10: GET and DELETE are both processed through the pipeline. -/
theorem handler_no_method_filtering_witness :
    handler "GET" ⟨none, none, none, none⟩ none (some ⟨"hi", none⟩)
        (fun _ => HttpOutcome.transportError) (fun _ => HttpOutcome.transportError)
        (fun _ => HttpOutcome.transportError)
      = handler "DELETE" ⟨none, none, none, none⟩ none (some ⟨"hi", none⟩)
        (fun _ => HttpOutcome.transportError) (fun _ => HttpOutcome.transportError)
        (fun _ => HttpOutcome.transportError)
    ∧ status_code (handler "GET" ⟨none, none, none, none⟩ none (some ⟨"hi", none⟩)
        (fun _ => HttpOutcome.transportError) (fun _ => HttpOutcome.transportError)
        (fun _ => HttpOutcome.transportError)).1 = 200 := by
  have h := handler_no_method_filtering "GET" "DELETE" ⟨none, none, none, none⟩
    none (some ⟨"hi", none⟩) (fun _ => HttpOutcome.transportError)
    (fun _ => HttpOutcome.transportError) (fun _ => HttpOutcome.transportError)
    ⟨"hi", none⟩ rfl rfl rfl
  exact ⟨h.1, h.2.2⟩

end RegisClaude
